import Mathlib

/-!
Verification of the delegated-authorization and resource-reservation core of the
sports_dairy_backend repository: a shallow embedding, in Lean 4, of the OTP
credential store (app/core/security.py, app/core/config.py), the auth endpoints
(app/api/auth.py), the venue reservation engine and its pricing rules
(app/api/venues.py), tournament registration capacity control
(app/api/tournaments.py), the organizer/manager delegation workflow
(app/api/organizer_team.py), and professional bookings
(app/api/professionals.py).

Conventions of the embedding:
- Time is a `Nat` counting minutes since an arbitrary epoch; `datetime.utcnow()`
  becomes an explicit `now` parameter, and `timedelta` constants are minute
  counts (5 minutes for the OTP TTL, 7 days = 10080 minutes for invitations).
- Python strings are Lean `String`s; the few string operations the code uses
  (startswith, len, split, int(...)) are re-implemented over `String.data`
  (a list of characters) so that the kernel can evaluate them on closed inputs.
- SHA-256 hashing of OTP codes (`hash_otp`) only ever flows into an equality
  comparison (`hmac.compare_digest`), so it is modelled as an injective encoding
  of its inputs; `random` OTP generation is modelled by passing the generated
  code as an explicit argument.
- Each MongoDB / SQL collection is a list of records; `find_one` is first-match
  lookup, `insert_one` appends, and `update_one` rewrites the first match, which
  matches insertion-order document scans.
- Monetary values (Python floats holding prices) are modelled as rationals; the
  claims under study concern which pricing formula is selected, not float
  rounding.
- Handlers raising `HTTPException` before any write are modelled as functions
  returning the unchanged state together with an error result.
-/

namespace SportsDiary

/-! ## String helpers (Python str operations over List Char) -/

/-- Python `s.startswith(p)` over character lists. -/
def charsStartWith : List Char → List Char → Bool
  | _, [] => true
  | [], _ :: _ => false
  | c :: cs, p :: ps => c = p && charsStartWith cs ps

/-- Python `s.split(sep)` for a single-character separator, over character
lists.  Like Python's split it yields one (possibly empty) chunk more than the
number of separators. -/
def splitChars (sep : Char) : List Char → List (List Char)
  | [] => [[]]
  | c :: cs =>
    let rest := splitChars sep cs
    if c = sep then [] :: rest
    else
      match rest with
      | [] => [[c]]
      | r :: rs => (c :: r) :: rs

/-- Python `int(s)` on a string of decimal digits (the only shape the code
feeds it: hour fields of "HH:MM" times and components of "YYYY-MM-DD" dates).
Total by construction; on non-digit input Python would raise instead. -/
def digitsToNat (cs : List Char) : Nat :=
  cs.foldl (fun acc c => acc * 10 + (c.toNat - 48)) 0

/-- Python `int(t.split(':')[0])`: the hour component of an "HH:MM" time
string, as used by venues.py (create_booking line 248, get_venue_slots). -/
def parseHour (t : String) : Int :=
  Int.ofNat (digitsToNat ((splitChars ':' t.data).headD []))

/-- Python truthiness of an optional string (`if booking_data.tournament_id`):
present and non-empty. -/
def truthyStr : Option String → Bool
  | none => false
  | some s => !s.data.isEmpty

/-- Python truthiness of an optional float price field
(`if venue.weekend_price`): present and non-zero. -/
def truthyPrice : Option ℚ → Bool
  | none => false
  | some p => p ≠ 0

/-! ## Gregorian calendar (datetime.strptime(date, "%Y-%m-%d").weekday())

The booking code derives a weekday (Monday = 0 … Sunday = 6) from a
"YYYY-MM-DD" date string via Python's datetime library.  The library call is
modelled by proleptic-Gregorian ordinal-day arithmetic: day 0 is 0001-01-01,
which is a Monday, so the weekday is the ordinal modulo 7. -/

/-- Gregorian leap-year rule. -/
def isLeapYear (y : Nat) : Bool := (y % 4 = 0 && y % 100 != 0) || y % 400 = 0

/-- Days in the months strictly before month `m` (1-based) of a year. -/
def daysBeforeMonth (leap : Bool) (m : Nat) : Nat :=
  let base := [0, 0, 31, 59, 90, 120, 151, 181, 212, 243, 273, 304, 334].getD m 0
  if leap && 3 ≤ m then base + 1 else base

/-- 0-based ordinal of the Gregorian date y-m-d, counting from 0001-01-01. -/
def toOrdinal (y m d : Nat) : Nat :=
  365 * (y - 1) + (y - 1) / 4 + (y - 1) / 400 + daysBeforeMonth (isLeapYear y) m + (d - 1)
    - (y - 1) / 100

/-- Python `datetime.weekday()`: Monday = 0 … Sunday = 6. -/
def weekdayOf (y m d : Nat) : Nat := toOrdinal y m d % 7

/-- Weekday of a "YYYY-MM-DD" date string (strptime then weekday).  Malformed
strings, on which Python would raise, are mapped to 0. -/
def dateWeekday (date : String) : Nat :=
  match splitChars '-' date.data with
  | [y, m, d] => weekdayOf (digitsToNat y) (digitsToNat m) (digitsToNat d)
  | _ => 0

/-! ## Configuration constants (app/core/config.py) -/

/-- config.py line 11: OTP challenges live for 5 minutes. -/
def OTP_EXPIRE_MINUTES : Nat := 5

/-- config.py line 12: maximum failed verification attempts before the
rate-limit error. -/
def OTP_MAX_ATTEMPTS : Nat := 5

/-! ## OTP credential store (app/core/security.py) -/

/-- security.py `hash_otp`: SHA-256 of otp ++ phone ++ secret.  The hash is
only ever compared for equality (`hmac.compare_digest`), so it is modelled as
an injective encoding of the (otp, phone) pair. -/
def hash_otp (otp phone : String) : String := otp ++ "#" ++ phone

/-- One entry of the in-memory `otp_storage` dict (security.py store_otp):
the hashed code and its absolute expiry instant. -/
structure OtpEntry where
  otp_hash : String
  expires_at : Nat
  deriving DecidableEq

/-- The module-level mutable state of security.py: `otp_storage` (challenges
keyed by phone) and `otp_attempts` (failed-attempt counters keyed by phone;
only the `failed_attempts` field is ever read). -/
structure OtpState where
  storage : String → Option OtpEntry
  attempts : String → Option Nat

/-- The empty OTP store (fresh process). -/
def OtpState.empty : OtpState := { storage := fun _ => none, attempts := fun _ => none }

/-- security.py `store_otp`: overwrite the challenge for `phone` with the
hashed code expiring `OTP_EXPIRE_MINUTES` from now, and reset the
failed-attempt counter for that phone to 0. -/
def store_otp (phone otp : String) (now : Nat) (s : OtpState) : OtpState :=
  { storage := fun p =>
      if p = phone then some { otp_hash := hash_otp otp phone, expires_at := now + OTP_EXPIRE_MINUTES }
      else s.storage p,
    attempts := fun p => if p = phone then some 0 else s.attempts p }

/-- Outcome of security.py `verify_otp`: the HTTP-429 rate-limit exception,
a `False` return (wrong / missing / expired code), or a `True` return. -/
inductive VerifyOtpResult where
  | rateLimited
  | invalid
  | ok
  deriving DecidableEq

/-- The rate-limit test at the top of security.py `verify_otp` (lines 48-55):
the phone has an attempts record whose `failed_attempts` has reached
`OTP_MAX_ATTEMPTS`. -/
def rateLimitHit (s : OtpState) (phone : String) : Bool :=
  match s.attempts phone with
  | some f => OTP_MAX_ATTEMPTS ≤ f
  | none => false

/-- security.py `verify_otp` (lines 43-87), as a state transformer.  The
checks run in source order: rate limit first, then presence of a challenge,
then expiry (purging on expiry), then the constant-time hash comparison
(counting a failure on mismatch), with full cleanup on success. -/
def verify_otp (phone otp : String) (now : Nat) (s : OtpState) : OtpState × VerifyOtpResult :=
  if rateLimitHit s phone then (s, .rateLimited)
  else
    match s.storage phone with
    | none => (s, .invalid)
    | some stored =>
      if stored.expires_at < now then
        ({ storage := fun p => if p = phone then none else s.storage p,
           attempts := fun p => if p = phone then none else s.attempts p }, .invalid)
      else if hash_otp otp phone ≠ stored.otp_hash then
        ({ s with attempts := fun p =>
            if p = phone then some ((s.attempts phone).getD 0 + 1) else s.attempts p }, .invalid)
      else
        ({ storage := fun p => if p = phone then none else s.storage p,
           attempts := fun p => if p = phone then none else s.attempts p }, .ok)

/-! ## Auth endpoints (app/api/auth.py) -/

/-- Outcome of the POST /auth/send-otp handler. -/
inductive SendOtpResult where
  | badPhone
  | sent (otp : String) (expires_in_minutes : Nat)
  deriving DecidableEq

/-- auth.py `send_otp` (lines 20-42): reject phones that do not start with
"+91" or whose length is not 13, without touching any state; otherwise issue
the (externally generated) code via `store_otp` and echo it back. -/
def send_otp (phone otp : String) (now : Nat) (s : OtpState) : OtpState × SendOtpResult :=
  if ¬ charsStartWith phone.data "+91".data ∨ phone.data.length ≠ 13 then
    (s, .badPhone)
  else
    (store_otp phone otp now s, .sent otp OTP_EXPIRE_MINUTES)

/-- A user document of the MongoDB `users` collection, restricted to the
fields auth.py reads or writes on the OTP path. -/
structure AuthUser where
  id : Nat
  phone : String
  is_verified : Bool
  is_active : Bool
  onboarding_completed : Bool
  created_at : Nat
  updated_at : Nat
  deriving DecidableEq

/-- The `users` collection with a fresh-id counter for `insert_one`. -/
structure AuthState where
  users : List AuthUser
  nextUserId : Nat
  deriving DecidableEq

/-- Rewrite the first user whose id matches (MongoDB `update_one` by _id). -/
def updateUserById (uid : Nat) (f : AuthUser → AuthUser) : List AuthUser → List AuthUser
  | [] => []
  | u :: rest => if u.id = uid then f u :: rest else u :: updateUserById uid f rest

/-- Outcome of the POST /auth/verify-otp handler. -/
inductive VerifyEndpointResult where
  | badOtpFormat
  | rateLimited
  | invalidOtp
  | ok (user : AuthUser)
  deriving DecidableEq

/-- auth.py `verify_otp_endpoint` (lines 44-103): validate the 6-digit code
shape, run `verify_otp`, then on success either create a minimal user for a
new phone (verified, active, onboarding_completed = false) or mark the
existing user verified and refresh its updated_at. -/
def verify_otp_endpoint (phone otp : String) (now : Nat) (s : OtpState × AuthState) :
    (OtpState × AuthState) × VerifyEndpointResult :=
  if ¬ (otp.data.all Char.isDigit ∧ otp.data.length = 6) then (s, .badOtpFormat)
  else
    match verify_otp phone otp now s.1 with
    | (otpS, .rateLimited) => ((otpS, s.2), .rateLimited)
    | (otpS, .invalid) => ((otpS, s.2), .invalidOtp)
    | (otpS, .ok) =>
      match s.2.users.find? (fun u => u.phone = phone) with
      | none =>
        let u : AuthUser :=
          { id := s.2.nextUserId, phone := phone, is_verified := true, is_active := true,
            onboarding_completed := false, created_at := now, updated_at := now }
        ((otpS, { users := s.2.users ++ [u], nextUserId := s.2.nextUserId + 1 }), .ok u)
      | some u =>
        let u' : AuthUser := { u with is_verified := true, updated_at := now }
        ((otpS, { s.2 with users := updateUserById u.id (fun v => { v with is_verified := true, updated_at := now }) s.2.users }), .ok u')

/-! ## Venue reservation engine (app/api/venues.py) -/

/-- A venues-table row, restricted to the fields the booking path reads or
writes (models.py lines 75-121). -/
structure Venue where
  id : Nat
  price_per_hour : ℚ
  weekend_price : Option ℚ
  peak_hour_price : Option ℚ
  total_bookings : Nat
  deriving DecidableEq

/-- A bookings-table row, restricted to the fields the reservation guard and
pricing use. -/
structure Booking where
  venue_id : Nat
  booking_date : String
  start_time : String
  end_time : String
  duration_hours : Int
  base_price : ℚ
  total_amount : ℚ
  status : String
  user_id : Nat
  deriving DecidableEq

/-- The body of schemas.py `BookingCreate` relevant to the guard and price. -/
structure BookingCreate where
  venue_id : Nat
  booking_date : String
  start_time : String
  end_time : String
  deriving DecidableEq

/-- The double-booking guard's filter (venues.py lines 230-239): same venue,
date and start time, with status confirmed or pending. -/
def isLiveAt (vid : Nat) (date start : String) (b : Booking) : Bool :=
  b.venue_id = vid ∧ b.booking_date = date ∧ b.start_time = start ∧
    (b.status = "confirmed" ∨ b.status = "pending")

/-- The price computation of venues.py `create_booking` (lines 247-258):
duration times price_per_hour, reassigned to weekend_price times duration when
the date's weekday is Saturday or Sunday and weekend_price is truthy.  No
other override appears on this path. -/
def bookingBasePrice (venue : Venue) (booking_date start_time end_time : String) : ℚ :=
  let duration : Int := parseHour end_time - parseHour start_time
  let base : ℚ := venue.price_per_hour * (duration : ℚ)
  if 5 ≤ dateWeekday booking_date ∧ truthyPrice venue.weekend_price then
    (venue.weekend_price.getD 0) * (duration : ℚ)
  else base

/-- The per-slot price of venues.py `get_venue_slots` (lines 182-194):
price_per_hour, reassigned to peak_hour_price for hours 18-21 when truthy,
then reassigned to weekend_price on Saturday or Sunday when truthy (the last
assignment wins, so the weekend override has precedence). -/
def slotPrice (venue : Venue) (date : String) (hour : Nat) : ℚ :=
  let p1 : ℚ := venue.price_per_hour
  let p2 : ℚ :=
    if (18 ≤ hour ∧ hour < 22) ∧ truthyPrice venue.peak_hour_price then
      venue.peak_hour_price.getD 0
    else p1
  if 5 ≤ dateWeekday date ∧ truthyPrice venue.weekend_price then
    venue.weekend_price.getD 0
  else p2

/-- The state touched by the venue booking path: the venues table and the
bookings table. -/
structure VenueState where
  venues : List Venue
  bookings : List Booking
  deriving DecidableEq

/-- Rewrite the first venue whose id matches (the ORM row update). -/
def updateVenueById (vid : Nat) (f : Venue → Venue) : List Venue → List Venue
  | [] => []
  | v :: rest => if v.id = vid then f v :: rest else v :: updateVenueById vid f rest

/-- Outcome of POST /venues/bookings. -/
inductive VenueBookResult where
  | venueNotFound
  | slotTaken
  | ok (b : Booking)
  deriving DecidableEq

/-- The booking row venues.py `create_booking` inserts on success (lines
264-283): status confirmed, base_price and total_amount both set to the
computed price. -/
def newVenueBooking (data : BookingCreate) (user_id : Nat) (venue : Venue) : Booking :=
  { venue_id := data.venue_id, booking_date := data.booking_date,
    start_time := data.start_time, end_time := data.end_time,
    duration_hours := parseHour data.end_time - parseHour data.start_time,
    base_price := bookingBasePrice venue data.booking_date data.start_time data.end_time,
    total_amount := bookingBasePrice venue data.booking_date data.start_time data.end_time,
    status := "confirmed", user_id := user_id }

/-- venues.py `create_booking` (lines 211-293): venue lookup, double-booking
guard on (venue, date, start_time) over statuses confirmed/pending, price
computation, insertion of a confirmed booking, and increment of the venue's
total_bookings counter.  Every error path leaves the state untouched. -/
def create_booking (data : BookingCreate) (user_id : Nat) (s : VenueState) :
    VenueState × VenueBookResult :=
  match s.venues.find? (fun v => v.id = data.venue_id) with
  | none => (s, .venueNotFound)
  | some venue =>
    if s.bookings.any (isLiveAt data.venue_id data.booking_date data.start_time) then
      (s, .slotTaken)
    else
      let b := newVenueBooking data user_id venue
      ({ venues := updateVenueById data.venue_id (fun v => { v with total_bookings := v.total_bookings + 1 }) s.venues,
         bookings := s.bookings ++ [b] }, .ok b)

/-- The state transitions of the venue-booking subsystem: a booking request,
or the out-of-scope venue-creation endpoint adding a venue row. -/
inductive VenueStep : VenueState → VenueState → Prop
  | book (data : BookingCreate) (uid : Nat) (s : VenueState) :
      VenueStep s (create_booking data uid s).1
  | addVenue (v : Venue) (s : VenueState) :
      VenueStep s { s with venues := s.venues ++ [v] }

/-- States reachable from a bookings-free initial state by venue-subsystem
transitions. -/
inductive VenueReach : VenueState → Prop
  | init (venues : List Venue) : VenueReach { venues := venues, bookings := [] }
  | step {s s' : VenueState} : VenueReach s → VenueStep s s' → VenueReach s'

/-- The double-booking invariant: at most one confirmed/pending booking per
(venue, date, start_time). -/
def atMostOneLive (s : VenueState) : Prop :=
  ∀ vid date start, (s.bookings.filter (isLiveAt vid date start)).length ≤ 1

/-- The pricing rule the specification describes for booking requests:
base times duration, independently overridden by peak_hour_price in the
evening band, with the weekend override taking precedence.  Stated from the
spec's words (claim C4) for comparison with `bookingBasePrice`, the rule the
source actually implements on the booking path. -/
def specClaimedBookingPrice (venue : Venue) (booking_date start_time end_time : String) : ℚ :=
  let duration : Int := parseHour end_time - parseHour start_time
  let base : ℚ := venue.price_per_hour * (duration : ℚ)
  let withPeak : ℚ :=
    if (18 ≤ parseHour start_time ∧ parseHour start_time < 22) ∧ truthyPrice venue.peak_hour_price then
      (venue.peak_hour_price.getD 0) * (duration : ℚ)
    else base
  if 5 ≤ dateWeekday booking_date ∧ truthyPrice venue.weekend_price then
    (venue.weekend_price.getD 0) * (duration : ℚ)
  else withPeak

/-! ## Tournament registration (app/api/tournaments.py) -/

/-- A tournaments document, restricted to the capacity fields. -/
structure Tournament where
  current_teams : Nat
  max_teams : Nat
  deriving DecidableEq

/-- A teams document, restricted to the captaincy check. -/
structure Team where
  captain_id : String
  deriving DecidableEq

/-- A tournament_registrations document, restricted to the duplicate-check
key and bookkeeping fields. -/
structure Registration where
  tournament_id : String
  team_id : String
  registered_by : String
  status : String
  deriving DecidableEq

/-- First-match lookup in a keyed collection (MongoDB find_one by _id). -/
def lookupKey {α : Type} (k : String) : List (String × α) → Option α
  | [] => none
  | (k', v) :: rest => if k' = k then some v else lookupKey k rest

/-- Rewrite the first entry with the given key (MongoDB update_one by _id). -/
def updateKey {α : Type} (k : String) (f : α → α) : List (String × α) → List (String × α)
  | [] => []
  | (k', v) :: rest => if k' = k then (k', f v) :: rest else (k', v) :: updateKey k f rest

/-- The state touched by the registration path. -/
structure TournamentState where
  tournaments : List (String × Tournament)
  teams : List (String × Team)
  registrations : List Registration
  deriving DecidableEq

/-- Outcome of POST /tournaments/{id}/register. -/
inductive RegisterResult where
  | tournamentNotFound
  | full
  | teamNotFound
  | notCaptain
  | alreadyRegistered
  | ok (r : Registration)
  deriving DecidableEq

/-- tournaments.py `register_team` (lines 373-444): tournament lookup, the
capacity check current_teams >= max_teams, team lookup, the captain-only
check, the (tournament, team) duplicate-registration check, then insertion of
a pending registration followed by an increment of current_teams.  Every
error path leaves the state untouched. -/
def register_team (tournament_id team_id caller_id : String) (s : TournamentState) :
    TournamentState × RegisterResult :=
  match lookupKey tournament_id s.tournaments with
  | none => (s, .tournamentNotFound)
  | some t =>
    if t.max_teams ≤ t.current_teams then (s, .full)
    else
      match lookupKey team_id s.teams with
      | none => (s, .teamNotFound)
      | some team =>
        if team.captain_id ≠ caller_id then (s, .notCaptain)
        else if s.registrations.any
            (fun r => r.tournament_id = tournament_id ∧ r.team_id = team_id) then
          (s, .alreadyRegistered)
        else
          let r : Registration :=
            { tournament_id := tournament_id, team_id := team_id,
              registered_by := caller_id, status := "pending" }
          ({ s with
              registrations := s.registrations ++ [r],
              tournaments := updateKey tournament_id
                (fun tr => { tr with current_teams := tr.current_teams + 1 }) s.tournaments },
            .ok r)

/-- The state transitions of the registration subsystem: a registration
request, tournament creation (tournaments.py line 147 sets current_teams to
0), or team creation. -/
inductive TournamentStep : TournamentState → TournamentState → Prop
  | register (tid team caller : String) (s : TournamentState) :
      TournamentStep s (register_team tid team caller s).1
  | createTournament (tid : String) (max : Nat) (s : TournamentState) :
      TournamentStep s
        { s with tournaments := s.tournaments ++ [(tid, { current_teams := 0, max_teams := max })] }
  | createTeam (team_id : String) (team : Team) (s : TournamentState) :
      TournamentStep s { s with teams := s.teams ++ [(team_id, team)] }

/-- States reachable from the empty state by registration-subsystem
transitions. -/
inductive TournamentReach : TournamentState → Prop
  | init : TournamentReach { tournaments := [], teams := [], registrations := [] }
  | step {s s' : TournamentState} : TournamentReach s → TournamentStep s s' → TournamentReach s'

/-- The capacity invariant: no tournament's current_teams exceeds its
max_teams. -/
def capacityOK (s : TournamentState) : Prop :=
  ∀ p ∈ s.tournaments, p.2.current_teams ≤ p.2.max_teams

/-! ## Organizer team delegation (app/api/organizer_team.py) -/

/-- A users document as seen by organizer_team.py: the id together with the
fields the handlers read. -/
structure UserDoc where
  id : String
  role : Option String
  name : Option String
  phone : Option String
  email : Option String
  deriving DecidableEq

/-- A team_invitations document (organizer_team.py lines 81-93). -/
structure Invitation where
  organizer_id : String
  user_id : String
  role_description : String
  permissions : List String
  status : String
  expires_at : Nat
  deriving DecidableEq

/-- An organizer_managers document, restricted to the fields the delegation
logic reads (organizer_team.py lines 160-174). -/
structure Manager where
  organizer_id : String
  manager_user_id : String
  role_description : String
  permissions : List String
  is_active : Bool
  deriving DecidableEq

/-- The collections organizer_team.py manipulates, with a fresh-id counter
for invitation inserts. -/
structure OrgState where
  users : List (String × UserDoc)
  invitations : List (Nat × Invitation)
  managers : List Manager
  nextInvId : Nat
  deriving DecidableEq

/-- First-match lookup by numeric id (find_one on team_invitations). -/
def lookupNat {α : Type} (k : Nat) : List (Nat × α) → Option α
  | [] => none
  | (k', v) :: rest => if k' = k then some v else lookupNat k rest

/-- Rewrite the first entry with the given numeric key (update_one by _id). -/
def updateNat {α : Type} (k : Nat) (f : α → α) : List (Nat × α) → List (Nat × α)
  | [] => []
  | (k', v) :: rest => if k' = k then (k', f v) :: rest else (k', v) :: updateNat k f rest

/-- organizer_team.py line 78: the proposed permission set with
edit_tournament force-included; Python's `list(set([*permissions,
"edit_tournament"]))` is modelled by membership-preserving deduplication. -/
def permissionsToSend (permissions : List String) : List String :=
  (permissions ++ ["edit_tournament"]).dedup

/-- The invitation lifetime (organizer_team.py line 92): 7 days, in
minutes. -/
def INVITATION_EXPIRES_MINUTES : Nat := 7 * 24 * 60

/-- Outcome of POST /organizer-team/invitations/send. -/
inductive SendInvitationResult where
  | notOrganizer
  | userNotFound
  | selfInvite
  | alreadyManager
  | alreadyInvited
  | ok (invId : Nat) (inv : Invitation)
  deriving DecidableEq

/-- organizer_team.py `send_team_invitation` (lines 28-105): organizer-role
check, target lookup, self-invite check, active-manager duplicate check,
pending-invitation duplicate check, then insertion of a pending invitation
carrying `permissionsToSend` and expiring in 7 days. -/
def send_team_invitation (caller : UserDoc) (req_user_id : String)
    (req_permissions : List String) (req_role_description : String) (now : Nat)
    (s : OrgState) : OrgState × SendInvitationResult :=
  if caller.role ≠ some "organizer" then (s, .notOrganizer)
  else
    match lookupKey req_user_id s.users with
    | none => (s, .userNotFound)
    | some _ =>
      if req_user_id = caller.id then (s, .selfInvite)
      else if s.managers.any (fun m =>
          m.organizer_id = caller.id ∧ m.manager_user_id = req_user_id ∧ m.is_active) then
        (s, .alreadyManager)
      else if s.invitations.any (fun p =>
          p.2.organizer_id = caller.id ∧ p.2.user_id = req_user_id ∧ p.2.status = "pending") then
        (s, .alreadyInvited)
      else
        let inv : Invitation :=
          { organizer_id := caller.id, user_id := req_user_id,
            role_description := req_role_description,
            permissions := permissionsToSend req_permissions,
            status := "pending", expires_at := now + INVITATION_EXPIRES_MINUTES }
        ({ s with invitations := s.invitations ++ [(s.nextInvId, inv)],
                  nextInvId := s.nextInvId + 1 },
          .ok s.nextInvId inv)

/-- Outcome of POST /organizer-team/invitations/{id}/accept. -/
inductive AcceptResult where
  | notFound
  | notYours
  | notPending
  | expired
  | ok (m : Manager)
  deriving DecidableEq

/-- The manager document accept creates (organizer_team.py lines 160-174):
the invitation's organizer, the accepting user, and the invitation's
role_description and permissions, active and verified. -/
def managerFromInvitation (inv : Invitation) (caller_id : String) : Manager :=
  { organizer_id := inv.organizer_id, manager_user_id := caller_id,
    role_description := inv.role_description, permissions := inv.permissions,
    is_active := true }

/-- organizer_team.py `accept_team_invitation` (lines 131-196): lookup,
target check, pending check, expiry check (expires_at strictly before now),
then creation of the manager grant and transition of the invitation to
accepted.  Every error path leaves the state untouched. -/
def accept_team_invitation (invitation_id : Nat) (caller_id : String) (now : Nat)
    (s : OrgState) : OrgState × AcceptResult :=
  match lookupNat invitation_id s.invitations with
  | none => (s, .notFound)
  | some inv =>
    if inv.user_id ≠ caller_id then (s, .notYours)
    else if inv.status ≠ "pending" then (s, .notPending)
    else if inv.expires_at < now then (s, .expired)
    else
      let m := managerFromInvitation inv caller_id
      ({ s with managers := s.managers ++ [m],
                invitations := updateNat invitation_id
                  (fun i => { i with status := "accepted" }) s.invitations },
        .ok m)

/-- Outcome of POST /organizer-team/invitations/{id}/reject. -/
inductive RejectResult where
  | notFound
  | notYours
  | notPending
  | ok
  deriving DecidableEq

/-- organizer_team.py `reject_team_invitation` (lines 199-232): lookup,
target check, pending check, then transition of the invitation to rejected.
The handler performs no expiry check and never consults the clock. -/
def reject_team_invitation (invitation_id : Nat) (caller_id : String)
    (s : OrgState) : OrgState × RejectResult :=
  match lookupNat invitation_id s.invitations with
  | none => (s, .notFound)
  | some inv =>
    if inv.user_id ≠ caller_id then (s, .notYours)
    else if inv.status ≠ "pending" then (s, .notPending)
    else
      ({ s with invitations := updateNat invitation_id
                  (fun i => { i with status := "rejected" }) s.invitations },
        .ok)

/-- The response document of GET /organizer-team/check-permission. -/
structure PermCheck where
  is_organizer : Bool
  is_manager : Bool
  organizer_id : Option String
  permissions : List String
  deriving DecidableEq

/-- The fixed capability set an organizer with no grant reports
(organizer_team.py line 684). -/
def organizerFullPermissions : List String :=
  ["create_tournament", "edit_tournament", "view_registrations", "manage_team"]

/-- The active-grant lookup of check_my_permissions (organizer_team.py lines
663-666): first active manager document for the user. -/
def findActiveGrant (user_id : String) (managers : List Manager) : Option Manager :=
  managers.find? (fun m => m.manager_user_id = user_id ∧ m.is_active)

/-- organizer_team.py `check_my_permissions` (lines 653-692): the manager
lookup runs first; only when no active grant exists is the caller's own
organizer role consulted. -/
def check_my_permissions (current_user : UserDoc) (managers : List Manager) : PermCheck :=
  match findActiveGrant current_user.id managers with
  | some m =>
    { is_organizer := false, is_manager := true,
      organizer_id := some m.organizer_id, permissions := m.permissions }
  | none =>
    if current_user.role = some "organizer" then
      { is_organizer := true, is_manager := false,
        organizer_id := some current_user.id, permissions := organizerFullPermissions }
    else
      { is_organizer := false, is_manager := false,
        organizer_id := none, permissions := [] }

/-! ## Professional bookings (app/api/professionals.py) -/

/-- A professional_availability document, restricted to the fields the
booking path reads or writes. -/
structure Availability where
  is_active : Bool
  per_match_fee : ℚ
  total_bookings : Nat
  deriving DecidableEq

/-- A professional_bookings document, restricted to the umpire guard's key
and bookkeeping fields. -/
structure ProfBooking where
  professional_id : String
  tournament_id : Option String
  role : String
  status : String
  booked_by : String
  per_match_fee : ℚ
  deriving DecidableEq

/-- The body of schemas.py `ProfessionalBookingCreate` relevant to the
guard. -/
structure ProfBookingCreate where
  professional_id : String
  tournament_id : Option String
  role : String
  deriving DecidableEq

/-- The collections professionals.py `create_booking` touches. -/
structure ProfState where
  availability : List (String × Availability)
  bookings : List ProfBooking
  deriving DecidableEq

/-- Outcome of POST /professionals/bookings. -/
inductive ProfBookResult where
  | notFound
  | notAvailable
  | alreadyBooked
  | ok (b : ProfBooking)
  deriving DecidableEq

/-- The umpire double-booking guard (professionals.py lines 245-258): fires
exactly when a tournament id is supplied (Python-truthy) and the requested
role is Umpire and some existing booking for the same (tournament,
professional, Umpire) has status confirmed or accepted. -/
def umpireConflict (data : ProfBookingCreate) (bookings : List ProfBooking) : Bool :=
  truthyStr data.tournament_id ∧ data.role = "Umpire" ∧
    bookings.any (fun b =>
      b.tournament_id = data.tournament_id ∧ b.professional_id = data.professional_id ∧
        b.role = "Umpire" ∧ (b.status = "confirmed" ∨ b.status = "accepted"))

/-- The booking document professionals.py inserts on success (lines
263-273): status confirmed, fee copied from the availability. -/
def newProfBooking (data : ProfBookingCreate) (caller_id : String) (av : Availability) :
    ProfBooking :=
  { professional_id := data.professional_id, tournament_id := data.tournament_id,
    role := data.role, status := "confirmed", booked_by := caller_id,
    per_match_fee := av.per_match_fee }

/-- professionals.py `create_booking` (lines 222-286): availability lookup,
active check, the umpire-only double-booking guard, then unconditional
insertion of a confirmed booking and increment of the professional's
total_bookings.  No slot guard exists for any role other than Umpire. -/
def create_professional_booking (data : ProfBookingCreate) (caller_id : String)
    (s : ProfState) : ProfState × ProfBookResult :=
  match lookupKey data.professional_id s.availability with
  | none => (s, .notFound)
  | some av =>
    if ¬ av.is_active then (s, .notAvailable)
    else if umpireConflict data s.bookings then (s, .alreadyBooked)
    else
      let b := newProfBooking data caller_id av
      ({ availability := updateKey data.professional_id
            (fun a => { a with total_bookings := a.total_bookings + 1 }) s.availability,
         bookings := s.bookings ++ [b] }, .ok b)

/-! ## Concrete fixtures for witnesses and counterexamples -/

/-- A valid "+91" phone used in concrete scenarios. -/
def phoneA : String := "+919999999999"

/-- An OTP store in which `phoneA` has exhausted its attempts: the counter sits
at `OTP_MAX_ATTEMPTS` and the stored challenge expired at minute 10. -/
def otpStateLimited : OtpState :=
  { storage := fun p =>
      if p = phoneA then some { otp_hash := hash_otp "123456" phoneA, expires_at := 10 }
      else none,
    attempts := fun p => if p = phoneA then some OTP_MAX_ATTEMPTS else none }

/-- A pending invitation whose expiry instant, minute 10, has passed in the
scenarios below. -/
def invExpired : Invitation :=
  { organizer_id := "org1", user_id := "u2", role_description := "Helper",
    permissions := ["edit_tournament"], status := "pending", expires_at := 10 }

/-- A delegation state holding only the expired pending invitation under id
5. -/
def orgStateExpired : OrgState :=
  { users := [], invitations := [(5, invExpired)], managers := [], nextInvId := 6 }

/-- An active manager grant from organizer org1 to user u2 carrying a single
capability. -/
def managerGrantA : Manager :=
  { organizer_id := "org1", manager_user_id := "u2", role_description := "Scorer",
    permissions := ["view_registrations"], is_active := true }

/-- User u2, whose own role is organizer. -/
def organizerUserB : UserDoc :=
  { id := "u2", role := some "organizer", name := none, phone := none, email := none }

/-- Organizer org1 as the invitation sender. -/
def orgCallerA : UserDoc :=
  { id := "org1", role := some "organizer", name := none, phone := none, email := none }

/-- User u3, a player, as the invitation target. -/
def playerUserC : UserDoc :=
  { id := "u3", role := some "player", name := none, phone := none, email := none }

/-- The delegation state before the invite/accept scenario: both users
registered, no invitations, no grants. -/
def orgState0 : OrgState :=
  { users := [("org1", orgCallerA), ("u3", playerUserC)],
    invitations := [], managers := [], nextInvId := 0 }

/-- The invitation send_team_invitation creates in the scenario (sent at
minute 100 with the single requested capability view_registrations). -/
def invSentC6 : Invitation :=
  { organizer_id := "org1", user_id := "u3", role_description := "Helper",
    permissions := permissionsToSend ["view_registrations"], status := "pending",
    expires_at := 100 + INVITATION_EXPIRES_MINUTES }

/-- The state after the invitation is sent. -/
def orgState1 : OrgState :=
  { orgState0 with invitations := [(0, invSentC6)], nextInvId := 1 }

/-- The grant acceptance creates in the scenario. -/
def managerC6 : Manager := managerFromInvitation invSentC6 "u3"

/-- The state after the invitation is accepted at minute 200. -/
def orgState2 : OrgState :=
  { orgState1 with managers := [managerC6],
                   invitations := [(0, { invSentC6 with status := "accepted" })] }

/-- A second valid phone, not yet registered in the scenarios below. -/
def phoneB : String := "+918888888888"

/-- The OTP store after issuing code 123456 to `phoneB` at minute 0. -/
def otpStateB : OtpState := store_otp phoneB "123456" 0 OtpState.empty

/-- The user record the verify endpoint creates for `phoneB` at minute 1. -/
def newUserB : AuthUser :=
  { id := 0, phone := phoneB, is_verified := true, is_active := true,
    onboarding_completed := false, created_at := 1, updated_at := 1 }

/-- An active, available professional. -/
def availU : Availability := { is_active := true, per_match_fee := 500, total_bookings := 0 }

/-- An existing confirmed booking of that professional as a Player for
tournament t1. -/
def profBookingPlayer : ProfBooking :=
  { professional_id := "p1", tournament_id := some "t1", role := "Player",
    status := "confirmed", booked_by := "u1", per_match_fee := 500 }

/-- The professional-booking state for the C8 scenario. -/
def profStateA : ProfState :=
  { availability := [("p1", availU)], bookings := [profBookingPlayer] }

/-- A request to book the same professional as an Umpire for tournament t1. -/
def profReqUmpire : ProfBookingCreate :=
  { professional_id := "p1", tournament_id := some "t1", role := "Umpire" }

/-- A venue with a peak-hour override but no weekend override. -/
def venuePeakOnly : Venue :=
  { id := 1, price_per_hour := 100, weekend_price := none, peak_hour_price := some 500,
    total_bookings := 0 }

/-- A weekday-evening booking request at that venue: Monday 2025-10-13,
18:00-19:00, squarely inside the peak band. -/
def bkReqMonEvening : BookingCreate :=
  { venue_id := 1, booking_date := "2025-10-13", start_time := "18:00", end_time := "19:00" }

/-- A venue carrying both a weekend and a peak-hour override. -/
def venueWkndPeak : Venue :=
  { id := 2, price_per_hour := 100, weekend_price := some 300, peak_hour_price := some 500,
    total_bookings := 0 }

/-- A Saturday-evening booking request at that venue: 2025-10-11,
18:00-20:00. -/
def bkReqSat : BookingCreate :=
  { venue_id := 2, booking_date := "2025-10-11", start_time := "18:00", end_time := "20:00" }

/-- The venue state for the pricing scenario. -/
def vStateC4 : VenueState := { venues := [venueWkndPeak], bookings := [] }

/-- The state after the Saturday booking goes through. -/
def vStateC4' : VenueState := (create_booking bkReqSat 7 vStateC4).1

/-- A tournament at capacity (2 of 2 teams) with a registrable team. -/
def tStateFull : TournamentState :=
  { tournaments := [("t1", { current_teams := 2, max_teams := 2 })],
    teams := [("team1", { captain_id := "u1" })], registrations := [] }

/-- A tournament with free capacity (0 of 2 teams) and a registrable team. -/
def tStateOpen : TournamentState :=
  { tournaments := [("t1", { current_teams := 0, max_teams := 2 })],
    teams := [("team1", { captain_id := "u1" })], registrations := [] }

/-- A venue with no pricing overrides, for the double-booking scenario. -/
def venueW : Venue :=
  { id := 3, price_per_hour := 100, weekend_price := none, peak_hour_price := none,
    total_bookings := 0 }

/-- A weekday-morning booking request at that venue. -/
def bkReqW : BookingCreate :=
  { venue_id := 3, booking_date := "2025-10-14", start_time := "09:00", end_time := "10:00" }

/-- The venue state before any booking. -/
def vStateW : VenueState := { venues := [venueW], bookings := [] }

/-- The venue state after user 7 books the 09:00 slot. -/
def vStateW1 : VenueState := (create_booking bkReqW 7 vStateW).1

/-! ## Helper lemmas about the collection primitives -/

theorem lookupKey_updateKey_self {α : Type} (k : String) (f : α → α) (l : List (String × α)) :
    lookupKey k (updateKey k f l) = (lookupKey k l).map f := by
  induction l with
  | nil => rfl
  | cons p rest ih =>
    obtain ⟨k', v⟩ := p
    by_cases h : k' = k
    · simp [updateKey, lookupKey, h]
    · simp [updateKey, lookupKey, h, ih]

theorem mem_updateKey {α : Type} {k : String} {f : α → α} {l : List (String × α)}
    {p : String × α} :
    p ∈ updateKey k f l → p ∈ l ∨ ∃ v, lookupKey k l = some v ∧ p = (k, f v) := by
  induction l with
  | nil => intro hp; simp [updateKey] at hp
  | cons q rest ih =>
    obtain ⟨k', v⟩ := q
    intro hp
    by_cases h : k' = k
    · subst h
      have hp' : p ∈ (k', f v) :: rest := by simpa [updateKey] using hp
      rcases List.mem_cons.mp hp' with h1 | h1
      · exact Or.inr ⟨v, by simp [lookupKey], h1⟩
      · exact Or.inl (List.mem_cons_of_mem _ h1)
    · have hp' : p ∈ (k', v) :: updateKey k f rest := by simpa [updateKey, h] using hp
      rcases List.mem_cons.mp hp' with h1 | h1
      · exact Or.inl (by simp [h1])
      · rcases ih h1 with h2 | ⟨w, hw, hp2⟩
        · exact Or.inl (List.mem_cons_of_mem _ h2)
        · exact Or.inr ⟨w, by simp [lookupKey, h, hw], hp2⟩

theorem lookupNat_updateNat_self {α : Type} (k : Nat) (f : α → α) (l : List (Nat × α)) :
    lookupNat k (updateNat k f l) = (lookupNat k l).map f := by
  induction l with
  | nil => rfl
  | cons p rest ih =>
    obtain ⟨k', v⟩ := p
    by_cases h : k' = k
    · simp [updateNat, lookupNat, h]
    · simp [updateNat, lookupNat, h, ih]

theorem lookupNat_append_fresh {α : Type} (k : Nat) (v : α) (l : List (Nat × α))
    (hfresh : ∀ p ∈ l, p.1 ≠ k) :
    lookupNat k (l ++ [(k, v)]) = some v := by
  induction l with
  | nil => simp [lookupNat]
  | cons q rest ih =>
    have hq : q.1 ≠ k := hfresh q (List.mem_cons_self _ _)
    obtain ⟨k', w⟩ := q
    simp only [List.cons_append, lookupNat, if_neg hq]
    exact ih fun p hp => hfresh p (List.mem_cons_of_mem _ hp)

theorem updateUserById_length (uid : Nat) (f : AuthUser → AuthUser) (l : List AuthUser) :
    (updateUserById uid f l).length = l.length := by
  induction l with
  | nil => rfl
  | cons u rest ih =>
    by_cases h : u.id = uid
    · simp [updateUserById, h]
    · simp [updateUserById, h, ih]

theorem bookingBasePrice_eq (venue : Venue) (d st en : String) :
    bookingBasePrice venue d st en =
      if 5 ≤ dateWeekday d ∧ truthyPrice venue.weekend_price = true then
        venue.weekend_price.getD 0 * ((parseHour en - parseHour st : Int) : ℚ)
      else venue.price_per_hour * ((parseHour en - parseHour st : Int) : ℚ) := rfl

theorem specClaimedBookingPrice_eq (venue : Venue) (d st en : String) :
    specClaimedBookingPrice venue d st en =
      if 5 ≤ dateWeekday d ∧ truthyPrice venue.weekend_price = true then
        venue.weekend_price.getD 0 * ((parseHour en - parseHour st : Int) : ℚ)
      else if (18 ≤ parseHour st ∧ parseHour st < 22) ∧
          truthyPrice venue.peak_hour_price = true then
        venue.peak_hour_price.getD 0 * ((parseHour en - parseHour st : Int) : ℚ)
      else venue.price_per_hour * ((parseHour en - parseHour st : Int) : ℚ) := rfl

theorem slotPrice_eq (venue : Venue) (date : String) (hour : Nat) :
    slotPrice venue date hour =
      if 5 ≤ dateWeekday date ∧ truthyPrice venue.weekend_price = true then
        venue.weekend_price.getD 0
      else if (18 ≤ hour ∧ hour < 22) ∧ truthyPrice venue.peak_hour_price = true then
        venue.peak_hour_price.getD 0
      else venue.price_per_hour := rfl

/-! ## Claim theorems -/

/-- C10: send-otp rejects with a 400 validation error any phone that does not
start with "+91" or whose length is not exactly 13 characters; in that case it
issues no code and the OTP challenge and attempt state of every phone is
unchanged (the returned state is the input state itself). -/
theorem send_otp_rejects_malformed_phone (phone otp : String) (now : Nat) (s : OtpState)
    (h : ¬ charsStartWith phone.data "+91".data ∨ phone.data.length ≠ 13) :
    send_otp phone otp now s = (s, .badPhone) := by
  unfold send_otp
  rw [if_pos h]

/-- Witness for C10 at the concrete phone "12345" (wrong shape and length). -/
theorem send_otp_rejects_malformed_phone_witness :
    (¬ charsStartWith ("12345" : String).data ("+91" : String).data ∨
        ("12345" : String).data.length ≠ 13) ∧
    send_otp "12345" "123456" 0 OtpState.empty = (OtpState.empty, .badPhone) :=
  ⟨Or.inl (by decide),
    send_otp_rejects_malformed_phone "12345" "123456" 0 OtpState.empty (Or.inl (by decide))⟩

/-- C3, counterexample: the claim says the rate-limit error lasts only until
the challenge naturally expires, at which point the rate-limit state resets.
In the code the rate-limit check in verify_otp runs before the expiry check,
so at minute 20 — past the challenge's expiry at minute 10 — a verify with the
correct code still raises the rate-limit error and the counter is not reset:
the state comes back unchanged, counter still at the maximum. -/
theorem verify_otp_rate_limit_outlives_expiry :
    (10 : Nat) < 20 ∧
    (verify_otp phoneA "123456" 20 otpStateLimited).2 = .rateLimited ∧
    (verify_otp phoneA "123456" 20 otpStateLimited).1.attempts phoneA =
      some OTP_MAX_ATTEMPTS ∧
    (verify_otp phoneA "123456" 20 otpStateLimited).1.storage phoneA =
      some { otp_hash := hash_otp "123456" phoneA, expires_at := 10 } := by
  refine ⟨by decide, ?_, ?_, ?_⟩ <;> decide

/-- C3, amended: once the failed-attempt counter for a phone has reached
OTP_MAX_ATTEMPTS, every subsequent verify for that phone fails fast with the
rate-limit error — even when the correct code is supplied, and even after the
challenge's expiry, since the rate-limit check precedes the expiry check and
nothing at expiry resets the counter.  The state resets only when a new code
is issued for the phone: store_otp zeroes the counter, after which verifying
the newly stored code at or before its expiry succeeds. -/
theorem verify_otp_rate_limit_behavior (s : OtpState) (phone otp : String) (now : Nat)
    (h : rateLimitHit s phone = true) :
    verify_otp phone otp now s = (s, .rateLimited) ∧
    (∀ otp2 t1 t2, t2 ≤ t1 + OTP_EXPIRE_MINUTES →
      (verify_otp phone otp2 t2 (store_otp phone otp2 t1 s)).2 = .ok) := by
  constructor
  · unfold verify_otp
    rw [if_pos h]
  · intro otp2 t1 t2 ht
    have hnolimit : rateLimitHit (store_otp phone otp2 t1 s) phone = false := by
      simp [rateLimitHit, store_otp, OTP_MAX_ATTEMPTS]
    have hstore : (store_otp phone otp2 t1 s).storage phone =
        some { otp_hash := hash_otp otp2 phone, expires_at := t1 + OTP_EXPIRE_MINUTES } := by
      simp [store_otp]
    unfold verify_otp
    rw [hnolimit]
    simp only [Bool.false_eq_true, if_false, hstore]
    rw [if_neg (by omega), if_neg (by simp)]

/-- Witness for C3's amended theorem on the concrete exhausted state: the
rate-limit error persists at minute 20 (after expiry at minute 10), and a
fresh issue at minute 20 allows a successful verify at minute 22. -/
theorem verify_otp_rate_limit_behavior_witness :
    rateLimitHit otpStateLimited phoneA = true ∧
    verify_otp phoneA "123456" 20 otpStateLimited = (otpStateLimited, .rateLimited) ∧
    (22 : Nat) ≤ 20 + OTP_EXPIRE_MINUTES ∧
    (verify_otp phoneA "654321" 22 (store_otp phoneA "654321" 20 otpStateLimited)).2 = .ok :=
  ⟨by decide,
    (verify_otp_rate_limit_behavior otpStateLimited phoneA "123456" 20 (by decide)).1,
    by decide,
    (verify_otp_rate_limit_behavior otpStateLimited phoneA "123456" 20 (by decide)).2
      "654321" 20 22 (by decide)⟩

/-- C5, counterexample: the claim says both accept and reject fail on an
expired pending invitation with no status change.  Rejecting the invitation
that expired at minute 10 succeeds regardless of the clock (the handler never
consults it) and flips the status to rejected. -/
theorem reject_expired_invitation_succeeds :
    invExpired.status = "pending" ∧ invExpired.expires_at < 20 ∧
    (reject_team_invitation 5 "u2" orgStateExpired).2 = .ok ∧
    lookupNat 5 (reject_team_invitation 5 "u2" orgStateExpired).1.invitations =
      some { invExpired with status := "rejected" } := by
  refine ⟨rfl, by decide, ?_, ?_⟩ <;> decide

/-- C5, amended: on a pending invitation whose expires_at has passed, accept
fails with the expiry error and leaves the whole state untouched (no grant,
no status change, record retained), but reject — which performs no expiry
check — succeeds: it creates no grant and retains the record, yet transitions
its status to rejected. -/
theorem expired_invitation_accept_inert_reject_mutates
    (s : OrgState) (iid : Nat) (caller : String) (now : Nat) (inv : Invitation)
    (hlook : lookupNat iid s.invitations = some inv)
    (huser : inv.user_id = caller) (hpend : inv.status = "pending")
    (hexp : inv.expires_at < now) :
    accept_team_invitation iid caller now s = (s, .expired) ∧
    (reject_team_invitation iid caller s).2 = .ok ∧
    (reject_team_invitation iid caller s).1.managers = s.managers ∧
    lookupNat iid (reject_team_invitation iid caller s).1.invitations =
      some { inv with status := "rejected" } := by
  have haccept : accept_team_invitation iid caller now s = (s, .expired) := by
    simp [accept_team_invitation, hlook, huser, hpend, hexp]
  have hrej : reject_team_invitation iid caller s =
      ({ s with invitations :=
                  updateNat iid (fun i => { i with status := "rejected" }) s.invitations },
        .ok) := by
    simp [reject_team_invitation, hlook, huser, hpend]
  refine ⟨haccept, ?_, ?_, ?_⟩
  · rw [hrej]
  · rw [hrej]
  · rw [hrej]
    simp [lookupNat_updateNat_self, hlook]

/-- Witness for C5's amended theorem on the concrete expired invitation at
minute 20. -/
theorem expired_invitation_accept_inert_reject_mutates_witness :
    accept_team_invitation 5 "u2" 20 orgStateExpired = (orgStateExpired, .expired) ∧
    (reject_team_invitation 5 "u2" orgStateExpired).2 = .ok ∧
    (reject_team_invitation 5 "u2" orgStateExpired).1.managers = orgStateExpired.managers ∧
    lookupNat 5 (reject_team_invitation 5 "u2" orgStateExpired).1.invitations =
      some { invExpired with status := "rejected" } :=
  expired_invitation_accept_inert_reject_mutates orgStateExpired 5 "u2" 20 invExpired
    (by decide) rfl rfl (by decide)

/-- C9: check_my_permissions resolves an active manager grant before the
caller's own role — whenever the first-match lookup over active grants finds
one, the response reports is_organizer false, is_manager true, the grant's
organizer as principal, and exactly the grant's permission list, regardless
of the caller's own role. -/
theorem check_permission_resolves_grant_first
    (user : UserDoc) (managers : List Manager) (m : Manager)
    (hfind : findActiveGrant user.id managers = some m) :
    check_my_permissions user managers =
      { is_organizer := false, is_manager := true,
        organizer_id := some m.organizer_id, permissions := m.permissions } := by
  unfold check_my_permissions
  rw [hfind]

/-- Witness for C9: user u2 has role organizer yet, holding an active grant,
is reported as a manager with the grant's single capability rather than the
fixed full organizer set. -/
theorem check_permission_resolves_grant_first_witness :
    findActiveGrant organizerUserB.id [managerGrantA] = some managerGrantA ∧
    organizerUserB.role = some "organizer" ∧
    check_my_permissions organizerUserB [managerGrantA] =
      { is_organizer := false, is_manager := true,
        organizer_id := some "org1", permissions := ["view_registrations"] } ∧
    managerGrantA.permissions ≠ organizerFullPermissions :=
  ⟨by decide, rfl,
    check_permission_resolves_grant_first organizerUserB [managerGrantA] managerGrantA (by decide),
    by decide⟩

/-- C6: whenever send_team_invitation succeeds and the resulting invitation
is then successfully accepted by its target, exactly one manager grant is
appended (the send itself creates none), the grant's capability set equals
the invitation's proposed set, and that set contains edit_tournament because
send force-includes it regardless of the requested capabilities.  The
freshness hypothesis says invitation ids already stored are below the
fresh-id counter, which insertion preserves. -/
theorem invite_then_accept_creates_one_grant
    (s : OrgState) (caller : UserDoc) (uid : String) (perms : List String) (rd : String)
    (now now2 : Nat) (s' s'' : OrgState) (invId : Nat) (inv : Invitation) (m : Manager)
    (hfresh : ∀ p ∈ s.invitations, p.1 < s.nextInvId)
    (hsend : send_team_invitation caller uid perms rd now s = (s', .ok invId inv))
    (haccept : accept_team_invitation invId uid now2 s' = (s'', .ok m)) :
    s'.managers = s.managers ∧
    s''.managers = s'.managers ++ [m] ∧
    m.permissions = inv.permissions ∧
    "edit_tournament" ∈ inv.permissions ∧
    m.organizer_id = caller.id ∧ m.manager_user_id = uid ∧ m.is_active = true := by
  unfold send_team_invitation at hsend
  split at hsend
  · simp at hsend
  · split at hsend
    · simp at hsend
    · split at hsend
      · simp at hsend
      · split at hsend
        · simp at hsend
        · split at hsend
          · simp at hsend
          · rw [Prod.mk.injEq] at hsend
            obtain ⟨hs', hr⟩ := hsend
            injection hr with hid hinv
            subst hid
            subst hinv
            subst hs'
            have hlook2 : lookupNat s.nextInvId (s.invitations ++
                [(s.nextInvId, { organizer_id := caller.id, user_id := uid,
                                 role_description := rd,
                                 permissions := permissionsToSend perms,
                                 status := "pending",
                                 expires_at := now + INVITATION_EXPIRES_MINUTES })]) =
                some { organizer_id := caller.id, user_id := uid,
                       role_description := rd, permissions := permissionsToSend perms,
                       status := "pending",
                       expires_at := now + INVITATION_EXPIRES_MINUTES } :=
              lookupNat_append_fresh _ _ _ (fun p hp => Nat.ne_of_lt (hfresh p hp))
            unfold accept_team_invitation at haccept
            rw [show (({ s with
                invitations := s.invitations ++
                  [(s.nextInvId, { organizer_id := caller.id, user_id := uid,
                                   role_description := rd,
                                   permissions := permissionsToSend perms,
                                   status := "pending",
                                   expires_at := now + INVITATION_EXPIRES_MINUTES })],
                nextInvId := s.nextInvId + 1 } : OrgState)).invitations =
              s.invitations ++
                [(s.nextInvId, { organizer_id := caller.id, user_id := uid,
                                 role_description := rd,
                                 permissions := permissionsToSend perms,
                                 status := "pending",
                                 expires_at := now + INVITATION_EXPIRES_MINUTES })] from rfl,
              hlook2] at haccept
            simp only [ne_eq, not_true_eq_false, if_false, String.reduceEq, ite_false,
              Bool.false_eq_true] at haccept
            split at haccept
            · simp at haccept
            · rw [Prod.mk.injEq] at haccept
              obtain ⟨hs'', hm⟩ := haccept
              injection hm with hm
              subst hm
              subst hs''
              refine ⟨rfl, rfl, rfl, ?_, rfl, rfl, rfl⟩
              exact List.mem_dedup.mpr (by simp)






/-- Witness for C6 on the concrete scenario: org1 invites u3 with the single
capability view_registrations at minute 100, and u3 accepts at minute 200. -/
theorem invite_then_accept_creates_one_grant_witness :
    orgState1.managers = orgState0.managers ∧
    orgState2.managers = orgState1.managers ++ [managerC6] ∧
    managerC6.permissions = invSentC6.permissions ∧
    "edit_tournament" ∈ invSentC6.permissions ∧
    managerC6.organizer_id = orgCallerA.id ∧ managerC6.manager_user_id = "u3" ∧
    managerC6.is_active = true :=
  invite_then_accept_creates_one_grant orgState0 orgCallerA "u3" ["view_registrations"]
    "Helper" 100 200 orgState1 orgState2 0 invSentC6 managerC6
    (by simp [orgState0]) (by decide) (by decide)

/-- C7, counterexample: the claim says the first successful verification for
a new phone creates a User with an unverified profile.  On the fresh phone
`phoneB` the endpoint creates the user with is_verified already true (the
code sets it at creation, auth.py line 77). -/
theorem first_verification_creates_verified_user :
    (verify_otp_endpoint phoneB "123456" 1
        (otpStateB, { users := [], nextUserId := 0 })).2 = .ok newUserB ∧
    newUserB.is_verified = true ∧ newUserB.onboarding_completed = false := by
  refine ⟨by decide, rfl, rfl⟩

/-- C7, amended: on a successful OTP verification for a phone with no
existing user record, exactly one minimal user is created and returned, with
is_verified true (the phone has just been proven), is_active true and
onboarding_completed false; for a phone with an existing record, no new
record is created (the user count is unchanged) and the first matching record
is marked verified with its updated_at refreshed. -/
theorem verify_endpoint_user_provisioning
    (phone otp : String) (now : Nat) (s : OtpState × AuthState)
    (hfmt : otp.data.all Char.isDigit ∧ otp.data.length = 6)
    (hok : (verify_otp phone otp now s.1).2 = .ok) :
    (s.2.users.find? (fun u => u.phone = phone) = none →
      verify_otp_endpoint phone otp now s =
        (((verify_otp phone otp now s.1).1,
          { users := s.2.users ++
              [{ id := s.2.nextUserId, phone := phone, is_verified := true,
                 is_active := true, onboarding_completed := false,
                 created_at := now, updated_at := now }],
            nextUserId := s.2.nextUserId + 1 }),
          .ok { id := s.2.nextUserId, phone := phone, is_verified := true,
                is_active := true, onboarding_completed := false,
                created_at := now, updated_at := now })) ∧
    (∀ u, s.2.users.find? (fun v => v.phone = phone) = some u →
      verify_otp_endpoint phone otp now s =
        (((verify_otp phone otp now s.1).1,
          { s.2 with users :=
                       updateUserById u.id
                         (fun v => { v with is_verified := true, updated_at := now })
                         s.2.users }),
          .ok { u with is_verified := true, updated_at := now }) ∧
      (updateUserById u.id
          (fun v => { v with is_verified := true, updated_at := now }) s.2.users).length =
        s.2.users.length) := by
  constructor
  · intro hnone
    unfold verify_otp_endpoint
    rw [if_neg (not_not_intro hfmt)]
    split
    next otpS heq =>
      rw [heq] at hok
      simp at hok
    next otpS heq =>
      rw [heq] at hok
      simp at hok
    next otpS heq =>
      rw [hnone, heq]
  · intro u hsome
    refine ⟨?_, updateUserById_length _ _ _⟩
    unfold verify_otp_endpoint
    rw [if_neg (not_not_intro hfmt)]
    split
    next otpS heq =>
      rw [heq] at hok
      simp at hok
    next otpS heq =>
      rw [heq] at hok
      simp at hok
    next otpS heq =>
      rw [hsome, heq]

/-- Witness for C7's amended theorem: verifying the fresh phone `phoneB`
creates exactly the minimal verified user. -/
theorem verify_endpoint_user_provisioning_witness :
    verify_otp_endpoint phoneB "123456" 1 (otpStateB, { users := [], nextUserId := 0 }) =
      (((verify_otp phoneB "123456" 1 otpStateB).1,
        { users := [newUserB], nextUserId := 1 }), .ok newUserB) :=
  (verify_endpoint_user_provisioning phoneB "123456" 1
      (otpStateB, { users := [], nextUserId := 0 }) (by decide) (by decide)).1 (by decide)

/-- C8: for an existing, active professional, create_booking fails with the
AlreadyBooked conflict exactly when the umpire guard fires — a truthy
tournament id, role Umpire, and an existing booking for the same
(tournament, professional, Umpire) in status confirmed or accepted — and in
every other case it succeeds, appending a confirmed booking and bumping the
professional's booking counter. -/
theorem professional_booking_umpire_guard
    (data : ProfBookingCreate) (caller : String) (s : ProfState) (av : Availability)
    (hlook : lookupKey data.professional_id s.availability = some av)
    (hact : av.is_active = true) :
    ((create_professional_booking data caller s).2 = .alreadyBooked ↔
      umpireConflict data s.bookings = true) ∧
    (umpireConflict data s.bookings = false →
      create_professional_booking data caller s =
        ({ availability := updateKey data.professional_id
              (fun a => { a with total_bookings := a.total_bookings + 1 }) s.availability,
           bookings := s.bookings ++ [newProfBooking data caller av] },
          .ok (newProfBooking data caller av))) := by
  have hmain : create_professional_booking data caller s =
      (if umpireConflict data s.bookings then (s, .alreadyBooked)
       else
        ({ availability := updateKey data.professional_id
              (fun a => { a with total_bookings := a.total_bookings + 1 }) s.availability,
           bookings := s.bookings ++ [newProfBooking data caller av] },
          .ok (newProfBooking data caller av))) := by
    unfold create_professional_booking
    rw [hlook]
    simp [hact]
  rw [hmain]
  by_cases hc : umpireConflict data s.bookings
  · rw [if_pos hc]
    exact ⟨⟨fun _ => hc, fun _ => rfl⟩, fun hfalse => absurd hc (by simp [hfalse])⟩
  · rw [if_neg hc]
    refine ⟨⟨fun h => absurd h (by simp), fun h => absurd h (by simp [hc])⟩, fun _ => rfl⟩

/-- Witness for C8: professional p1 is active and already booked as a Player
for tournament t1; booking them as Umpire for t1 is governed exactly by the
umpire guard, which does not fire here. -/
theorem professional_booking_umpire_guard_witness :
    (((create_professional_booking profReqUmpire "u9" profStateA).2 = .alreadyBooked) ↔
      umpireConflict profReqUmpire profStateA.bookings = true) ∧
    (umpireConflict profReqUmpire profStateA.bookings = false →
      create_professional_booking profReqUmpire "u9" profStateA =
        ({ availability := updateKey profReqUmpire.professional_id
              (fun a => { a with total_bookings := a.total_bookings + 1 })
              profStateA.availability,
           bookings := profStateA.bookings ++ [newProfBooking profReqUmpire "u9" availU] },
          .ok (newProfBooking profReqUmpire "u9" availU))) :=
  professional_booking_umpire_guard profReqUmpire "u9" profStateA availU (by decide) rfl

/-- C4, counterexample: the claim says the booking price is independently
overridden by peak_hour_price when the start hour falls in the evening band.
On Monday 2025-10-13 at 18:00-19:00 — a weekday evening squarely inside the
band, at a venue with peak_hour_price 500 — create_booking charges the plain
base price 100: the peak override exists only in the slot-listing endpoint,
never on the booking path, so the price the spec describes (500) differs from
the price the code computes (100). -/
theorem booking_price_ignores_peak_override :
    dateWeekday "2025-10-13" = 0 ∧
    (18 ≤ parseHour "18:00" ∧ parseHour "18:00" < 22) ∧
    truthyPrice venuePeakOnly.peak_hour_price = true ∧
    bookingBasePrice venuePeakOnly "2025-10-13" "18:00" "19:00" = 100 ∧
    specClaimedBookingPrice venuePeakOnly "2025-10-13" "18:00" "19:00" = 500 ∧
    bookingBasePrice venuePeakOnly "2025-10-13" "18:00" "19:00" ≠
      specClaimedBookingPrice venuePeakOnly "2025-10-13" "18:00" "19:00" ∧
    (create_booking bkReqMonEvening 7 { venues := [venuePeakOnly], bookings := [] }).2 =
      .ok (newVenueBooking bkReqMonEvening 7 venuePeakOnly) ∧
    (newVenueBooking bkReqMonEvening 7 venuePeakOnly).base_price = 100 := by
  have hdur : (parseHour "19:00" - parseHour "18:00" : Int) = 1 := by decide
  have h1 : bookingBasePrice venuePeakOnly "2025-10-13" "18:00" "19:00" = 100 := by
    rw [bookingBasePrice_eq, if_neg (by decide), hdur]
    norm_num [venuePeakOnly]
  have h2 : specClaimedBookingPrice venuePeakOnly "2025-10-13" "18:00" "19:00" = 500 := by
    rw [specClaimedBookingPrice_eq, if_neg (by decide), if_pos (by decide), hdur]
    norm_num [venuePeakOnly]
  refine ⟨by decide, ⟨by decide, by decide⟩, by decide, h1, h2, ?_, rfl, ?_⟩
  · rw [h1, h2]
    norm_num
  · show bookingBasePrice venuePeakOnly "2025-10-13" "18:00" "19:00" = 100
    exact h1

/-- C4, amended: the booking-path price is deterministic in the venue's
pricing fields, the date and the parsed hours, and consists of duration
times base price overridden only by the weekend price (weekend_price times
duration when the date falls on Saturday or Sunday and the field is truthy);
peak_hour_price is never consulted on the booking path.  The peak override,
with the weekend override taking precedence, exists only in the slot-listing
price of get_venue_slots. -/
theorem booking_price_weekend_override_only
    (data : BookingCreate) (uid : Nat) (s s' : VenueState) (venue : Venue) (b : Booking)
    (hfind : s.venues.find? (fun v => v.id = data.venue_id) = some venue)
    (hcreate : create_booking data uid s = (s', .ok b)) :
    b.base_price = bookingBasePrice venue data.booking_date data.start_time data.end_time ∧
    b.total_amount = b.base_price ∧
    (∀ p, bookingBasePrice { venue with peak_hour_price := p } data.booking_date
        data.start_time data.end_time =
      bookingBasePrice venue data.booking_date data.start_time data.end_time) ∧
    (5 ≤ dateWeekday data.booking_date → truthyPrice venue.weekend_price = true →
      b.base_price = venue.weekend_price.getD 0 *
        ((parseHour data.end_time - parseHour data.start_time : Int) : ℚ)) ∧
    (¬ (5 ≤ dateWeekday data.booking_date ∧ truthyPrice venue.weekend_price = true) →
      b.base_price = venue.price_per_hour *
        ((parseHour data.end_time - parseHour data.start_time : Int) : ℚ)) ∧
    (5 ≤ dateWeekday data.booking_date → truthyPrice venue.weekend_price = true →
      ∀ hour, slotPrice venue data.booking_date hour = venue.weekend_price.getD 0) := by
  have hmain : create_booking data uid s =
      (if s.bookings.any (isLiveAt data.venue_id data.booking_date data.start_time) then
        (s, .slotTaken)
       else
        ({ venues := updateVenueById data.venue_id
              (fun v => { v with total_bookings := v.total_bookings + 1 }) s.venues,
           bookings := s.bookings ++ [newVenueBooking data uid venue] },
          .ok (newVenueBooking data uid venue))) := by
    unfold create_booking
    rw [hfind]
  rw [hmain] at hcreate
  split at hcreate
  · simp at hcreate
  · rw [Prod.mk.injEq] at hcreate
    obtain ⟨hs', hb⟩ := hcreate
    injection hb with hb
    subst hb
    refine ⟨rfl, rfl, fun p => rfl, ?_, ?_, ?_⟩
    · intro hwd htr
      show bookingBasePrice venue data.booking_date data.start_time data.end_time = _
      rw [bookingBasePrice_eq, if_pos ⟨hwd, htr⟩]
    · intro hneg
      show bookingBasePrice venue data.booking_date data.start_time data.end_time = _
      rw [bookingBasePrice_eq, if_neg hneg]
    · intro hwd htr hour
      rw [slotPrice_eq, if_pos ⟨hwd, htr⟩]

/-- Witness for C4's amended theorem: the Saturday 18:00-20:00 booking at the
venue with both overrides is priced by the weekend rule, 300 per hour times
2 hours. -/
theorem booking_price_weekend_override_only_witness :
    (newVenueBooking bkReqSat 7 venueWkndPeak).base_price =
      bookingBasePrice venueWkndPeak bkReqSat.booking_date bkReqSat.start_time
        bkReqSat.end_time ∧
    (newVenueBooking bkReqSat 7 venueWkndPeak).total_amount =
      (newVenueBooking bkReqSat 7 venueWkndPeak).base_price ∧
    (newVenueBooking bkReqSat 7 venueWkndPeak).base_price = 600 :=
  ⟨(booking_price_weekend_override_only bkReqSat 7 vStateC4 vStateC4' venueWkndPeak
      (newVenueBooking bkReqSat 7 venueWkndPeak) (by decide) rfl).1,
   (booking_price_weekend_override_only bkReqSat 7 vStateC4 vStateC4' venueWkndPeak
      (newVenueBooking bkReqSat 7 venueWkndPeak) (by decide) rfl).2.1,
   by
    show bookingBasePrice venueWkndPeak "2025-10-11" "18:00" "20:00" = 600
    rw [bookingBasePrice_eq, if_pos (by decide),
      show (parseHour "20:00" - parseHour "18:00" : Int) = 2 from by decide]
    norm_num [venueWkndPeak]⟩

theorem register_team_preserves_capacity (tid team caller : String) (s : TournamentState)
    (h : capacityOK s) : capacityOK (register_team tid team caller s).1 := by
  unfold register_team
  split
  · exact h
  next t heq =>
    split
    · exact h
    next hfull =>
      split
      · exact h
      next team2 heq2 =>
        split
        · exact h
        · split
          · exact h
          · intro p hp
            have hp' : p ∈ updateKey tid
                (fun tr => { tr with current_teams := tr.current_teams + 1 })
                s.tournaments := hp
            rcases mem_updateKey hp' with hmem | ⟨v, hv, hpv⟩
            · exact h p hmem
            · rw [heq] at hv
              injection hv with hv
              subst hv
              subst hpv
              exact Nat.lt_of_not_le hfull

theorem create_booking_preserves_guard (data : BookingCreate) (uid : Nat) (s : VenueState)
    (h : atMostOneLive s) : atMostOneLive (create_booking data uid s).1 := by
  unfold create_booking
  split
  · exact h
  next venue heq =>
    split
    · exact h
    next hfree =>
      intro vid date start
      show (List.filter (isLiveAt vid date start)
        (s.bookings ++ [newVenueBooking data uid venue])).length ≤ 1
      rw [List.filter_append, List.length_append]
      have hfree' : ∀ x ∈ s.bookings,
          ¬ isLiveAt data.venue_id data.booking_date data.start_time x = true := by
        simpa [List.any_eq_true] using hfree
      by_cases hlive : isLiveAt vid date start (newVenueBooking data uid venue) = true
      · have hkey : data.venue_id = vid ∧ data.booking_date = date ∧
            data.start_time = start := by
          simpa [isLiveAt, newVenueBooking] using hlive
        obtain ⟨h1, h2, h3⟩ := hkey
        subst h1
        subst h2
        subst h3
        have hnil : List.filter
            (isLiveAt data.venue_id data.booking_date data.start_time) s.bookings = [] :=
          List.filter_eq_nil_iff.mpr hfree'
        rw [hnil]
        have : (List.filter (isLiveAt data.venue_id data.booking_date data.start_time)
            [newVenueBooking data uid venue]).length ≤ 1 := by
          simpa using List.length_filter_le
            (isLiveAt data.venue_id data.booking_date data.start_time)
            [newVenueBooking data uid venue]
        simpa using this
      · have hnil2 : List.filter (isLiveAt vid date start)
            [newVenueBooking data uid venue] = [] := by
          simp [List.filter, hlive]
        rw [hnil2]
        simpa using h vid date start

/-- C1: register_team fails with the Full conflict (state untouched) whenever
the tournament's current_teams has reached max_teams; on success it appends
exactly one registration and increments that tournament's current_teams by
exactly one; consequently, over all reachable states of the registration
subsystem (tournaments created with zero teams, team creation, registration
requests), current_teams never exceeds max_teams. -/
theorem register_team_capacity_control :
    (∀ s tid team caller t, lookupKey tid s.tournaments = some t →
      t.max_teams ≤ t.current_teams →
      register_team tid team caller s = (s, .full)) ∧
    (∀ s tid team caller s' r, register_team tid team caller s = (s', .ok r) →
      ∃ t, lookupKey tid s.tournaments = some t ∧ t.current_teams < t.max_teams ∧
        lookupKey tid s'.tournaments =
          some { t with current_teams := t.current_teams + 1 } ∧
        s'.registrations = s.registrations ++
          [{ tournament_id := tid, team_id := team, registered_by := caller,
             status := "pending" }] ∧
        r = { tournament_id := tid, team_id := team, registered_by := caller,
              status := "pending" }) ∧
    (∀ s, TournamentReach s → capacityOK s) := by
  refine ⟨?_, ?_, ?_⟩
  · intro s tid team caller t hlook hfull
    unfold register_team
    rw [hlook]
    exact if_pos hfull
  · intro s tid team caller s' r hreg
    unfold register_team at hreg
    split at hreg
    · simp at hreg
    next t heq =>
      split at hreg
      · simp at hreg
      next hfull =>
        split at hreg
        · simp at hreg
        next team2 heq2 =>
          split at hreg
          · simp at hreg
          · split at hreg
            · simp at hreg
            · rw [Prod.mk.injEq] at hreg
              obtain ⟨hs', hr⟩ := hreg
              injection hr with hr
              subst hr
              subst hs'
              refine ⟨t, heq, Nat.lt_of_not_le hfull, ?_, rfl, rfl⟩
              show lookupKey tid (updateKey tid
                (fun tr => { tr with current_teams := tr.current_teams + 1 })
                s.tournaments) = _
              rw [lookupKey_updateKey_self, heq]
              rfl
  · intro s hreach
    induction hreach with
    | init => intro p hp; simp at hp
    | step _ hstep ih =>
      cases hstep with
      | register tid team caller s1 =>
        exact register_team_preserves_capacity _ _ _ _ ih
      | createTournament tid max s1 =>
        intro p hp
        rcases List.mem_append.mp hp with hmem | hmem
        · exact ih p hmem
        · simp only [List.mem_singleton] at hmem
          subst hmem
          simp
      | createTeam team_id teamv s1 =>
        exact ih

/-- Witness for C1: the full tournament rejects a registration with the state
untouched, and the state reached by creating tournament t1 (capacity 2),
creating team team1, and registering it satisfies the capacity invariant. -/
theorem register_team_capacity_control_witness :
    register_team "t1" "team1" "u1" tStateFull = (tStateFull, .full) ∧
    capacityOK (register_team "t1" "team1" "u1" tStateOpen).1 :=
  ⟨register_team_capacity_control.1 tStateFull "t1" "team1" "u1"
      { current_teams := 2, max_teams := 2 } (by decide) (by decide),
    register_team_capacity_control.2.2 (register_team "t1" "team1" "u1" tStateOpen).1
      (TournamentReach.step
        (TournamentReach.step
          (TournamentReach.step TournamentReach.init
            (TournamentStep.createTournament "t1" 2 _))
          (TournamentStep.createTeam "team1" { captain_id := "u1" } _))
        (TournamentStep.register "t1" "team1" "u1" tStateOpen))⟩

/-- C2: whenever a booking request targets an existing venue and some booking
with status confirmed or pending already occupies the same (venue, date,
start_time), create_booking fails with the slot-taken conflict and the state
is unchanged; consequently, in every state reachable by venue creation and
booking requests from a bookings-free start, at most one confirmed/pending
booking exists per (venue, date, start_time). -/
theorem venue_double_booking_guard :
    (∀ data uid s venue, s.venues.find? (fun v => v.id = data.venue_id) = some venue →
      s.bookings.any (isLiveAt data.venue_id data.booking_date data.start_time) = true →
      create_booking data uid s = (s, .slotTaken)) ∧
    (∀ s, VenueReach s → atMostOneLive s) := by
  constructor
  · intro data uid s venue hfind hbusy
    unfold create_booking
    rw [hfind]
    exact if_pos hbusy
  · intro s hreach
    induction hreach with
    | init venues => intro vid date start; simp
    | step _ hstep ih =>
      cases hstep with
      | book data uid s1 => exact create_booking_preserves_guard _ _ _ ih
      | addVenue v s1 => exact ih

/-- Witness for C2: after user 7 books venue 3 on 2025-10-14 at 09:00, a
second request for the same slot is rejected with the state unchanged, and
the reached state satisfies the at-most-one-live-booking invariant. -/
theorem venue_double_booking_guard_witness :
    create_booking bkReqW 8 vStateW1 = (vStateW1, .slotTaken) ∧
    atMostOneLive vStateW1 :=
  ⟨venue_double_booking_guard.1 bkReqW 8 vStateW1
      { venueW with total_bookings := 1 } (by decide) (by decide),
    venue_double_booking_guard.2 vStateW1
      (VenueReach.step (VenueReach.init [venueW]) (VenueStep.book bkReqW 7 vStateW))⟩

end SportsDiary



